import Mathlib

/-!
Verification of the flip-clock repository (resnbl/flip-clock-py).

Part 1 embeds the animation state machine of `clock_digit.py`:
`ClockDigit` (one flipping digit cell) and `ClockFace` (the four cells,
their display-format handling, and the cascading per-tick update).
Part 2 embeds the frame-synthesis and RGB565 encoding of `flip_digits.py`.

Python integers are modelled as `Int`; Python `%` and `//` on a positive
divisor coincide with `Int.emod` / `Int.ediv`. Digit alphabets are
`List Char`. GUI side effects (window updates, image redraws) carry no
state relevant to the claims and are dropped.
-/

namespace FlipClock

/-- Clock display formats (`DispFmt` in clock_digit.py). -/
inductive DispFmt
  | HR24
  | HR12
  | HR12B
deriving DecidableEq, Repr

/-- Number of steps (images) for a flip (`MAX_STEP = 4`). -/
def MAX_STEP : Nat := 4

/-- One digit of the flip clock (`ClockDigit` in clock_digit.py).
`curr_idx` / `next_idx` index into `digits`; `step` is the flipping step. -/
structure ClockDigit where
  key : String
  digits : List Char
  curr_idx : Int
  next_idx : Int
  step : Nat
deriving DecidableEq, Repr

/-- `ClockDigit.set`: set a new digit value (display update dropped).
Python: `curr_idx = digit % len(digits); next_idx = curr_idx; step = 0`. -/
def ClockDigit.set (d : ClockDigit) (digit : Int) : ClockDigit :=
  let c := digit % (d.digits.length : Int)
  { d with curr_idx := c, next_idx := c, step := 0 }

/-- `ClockDigit.do_step`: advance to the next flipping image (maybe).
Returns the updated cell and the Python boolean result. -/
def ClockDigit.do_step (d : ClockDigit) : ClockDigit × Bool :=
  if d.curr_idx ≠ d.next_idx then
    let s := d.step + 1
    if s ≥ MAX_STEP then
      ({ d with curr_idx := d.next_idx, step := 0 }, true)
    else
      ({ d with step := s }, true)
  else
    (d, false)

/-- State-transition part of `ClockDigit.do_step` (the cell after one call). -/
def ClockDigit.adv (d : ClockDigit) : ClockDigit :=
  (d.do_step).1

/-- The whole clock face (`ClockFace` in clock_digit.py): the four cells in
significance order, the `stepping` flag, and the display format. -/
structure ClockFace where
  hr10 : ClockDigit
  hr01 : ClockDigit
  min10 : ClockDigit
  min01 : ClockDigit
  stepping : Bool
  disp_fmt : DispFmt
deriving DecidableEq, Repr

/-- Tens-hour alphabet table of `set_disp_fmt` (spec section 3 table). -/
def fmtDigits (fmt : DispFmt) : List Char :=
  match fmt with
  | .HR24 => ['0', '1', '2']
  | .HR12 => ['0', '1']
  | .HR12B => ['x', '1']

/-- Hours normalization shared by `set_disp_fmt`, `set_digits` and
`update_digits`: 12-hour variants map `hours > 12` to `hours - 12` and
`hours == 0` to `12`; 24-hour leaves hours unchanged. -/
def normHours (fmt : DispFmt) (hours : Int) : Int :=
  if fmt ≠ .HR24 then
    if hours > 12 then hours - 12
    else if hours = 0 then 12
    else hours
  else hours

/-- `ClockFace.set_disp_fmt`: swap the tens-hour alphabet for the format and
re-derive the hour cells from the currently displayed hour value. -/
def ClockFace.set_disp_fmt (f : ClockFace) (fmt : DispFmt) : ClockFace :=
  let hours0 : Int := f.hr10.curr_idx * 10 + f.hr01.curr_idx
  let hours : Int :=
    if fmt ≠ .HR24 then
      if hours0 > 12 then hours0 - 12
      else if hours0 = 0 then 12
      else hours0
    else hours0
  { f with
    hr10 := { f.hr10 with
      digits := fmtDigits fmt,
      curr_idx := hours / 10, next_idx := hours / 10, step := 0 },
    hr01 := { f.hr01 with
      curr_idx := hours % 10, next_idx := hours % 10, step := 0 },
    disp_fmt := fmt }

/-- `ClockFace.set_digits`: override current hours/mins (window arg dropped). -/
def ClockFace.set_digits (f : ClockFace) (hours mins : Int) : ClockFace :=
  let h : Int :=
    if f.disp_fmt ≠ .HR24 then
      if hours > 12 then hours - 12
      else if hours = 0 then 12
      else hours
    else hours
  { f with
    hr10 := f.hr10.set (h / 10),
    hr01 := f.hr01.set (h % 10),
    min10 := f.min10.set (mins / 10),
    min01 := f.min01.set (mins % 10),
    stepping := false }

/-- `ClockFace.update_digits`: set the `next_idx` values to initiate stepping. -/
def ClockFace.update_digits (f : ClockFace) (hours mins : Int) : ClockFace :=
  let h : Int :=
    if f.disp_fmt ≠ .HR24 then
      if hours > 12 then hours - 12
      else if hours = 0 then 12
      else hours
    else hours
  { f with
    hr10 := { f.hr10 with next_idx := h / 10, step := 0 },
    hr01 := { f.hr01 with next_idx := h % 10, step := 0 },
    min10 := { f.min10 with next_idx := mins / 10, step := 0 },
    min01 := { f.min01 with next_idx := mins % 10, step := 0 },
    stepping := true }

/-- Spec name `set_time(hours, minutes, allow_animation)`: the animating path
is `update_digits`, the non-animating path is `set_digits`. -/
def ClockFace.set_time (f : ClockFace) (hours mins : Int) (allow : Bool) : ClockFace :=
  if allow then f.update_digits hours mins else f.set_digits hours mins

/-- `ClockFace.do_step`: update to the next intra-digit frame. The Python
method has no `return` statement, so on every path it returns `None`,
modelled as `(none : Option Bool)` in the second component. -/
def ClockFace.do_step (f : ClockFace) : ClockFace × Option Bool :=
  if f.stepping then
    let r1 := f.min01.do_step
    if r1.2 then ({ f with min01 := r1.1 }, none)
    else
      let r2 := f.min10.do_step
      if r2.2 then ({ f with min10 := r2.1 }, none)
      else
        let r3 := f.hr01.do_step
        if r3.2 then ({ f with hr01 := r3.1 }, none)
        else
          let r4 := f.hr10.do_step
          if r4.2 then ({ f with hr10 := r4.1 }, none)
          else ({ f with stepping := false }, none)
  else (f, none)

/-- State-transition part of `ClockFace.do_step` (one tick of the face). -/
def ClockFace.tick (f : ClockFace) : ClockFace :=
  (f.do_step).1

/-- `ClockFace.is_stepping` (the spec's `is_animating`). -/
def ClockFace.is_stepping (f : ClockFace) : Bool :=
  f.stepping

/-- `ClockFace.__init__`: construct the four cells (with the 12-hour
default alphabets), then apply `set_disp_fmt DEFAULT_FMT`. -/
def mkClockFace : ClockFace :=
  let f0 : ClockFace :=
    { hr10 := { key := "-HR10s-", digits := ['0', '1'],
                curr_idx := 0, next_idx := 0, step := 0 },
      hr01 := { key := "-HR1s-", digits := ['0', '1', '2', '3', '4', '5', '6', '7', '8', '9'],
                curr_idx := 0, next_idx := 0, step := 0 },
      min10 := { key := "-MIN10s-", digits := ['0', '1', '2', '3', '4', '5'],
                 curr_idx := 0, next_idx := 0, step := 0 },
      min01 := { key := "-MIN1s-", digits := ['0', '1', '2', '3', '4', '5', '6', '7', '8', '9'],
                 curr_idx := 0, next_idx := 0, step := 0 },
      stepping := false,
      disp_fmt := .HR12 }
  f0.set_disp_fmt .HR12

/-- A copy of a cell with its flip committed: `curr_idx = next_idx`, `step = 0`
(the state `do_step` leaves a cell in when the flip finishes). -/
def ClockDigit.settle (d : ClockDigit) : ClockDigit :=
  { d with curr_idx := d.next_idx, step := 0 }

/-- Operations the clock driver (flip_clock.py) performs on the face:
`set_digits` from `set_clock`, `update_digits` from `clock_tick`, `do_step`
from the timer loop, and `set_disp_fmt` from the format button. -/
inductive DriverOp
  | setD (hours mins : Int)
  | updateD (hours mins : Int)
  | stepD
  | fmtD (fmt : DispFmt)
deriving DecidableEq, Repr

/-- Apply one driver operation to the face. -/
def applyOp (f : ClockFace) : DriverOp → ClockFace
  | .setD h m => f.set_digits h m
  | .updateD h m => f.update_digits h m
  | .stepD => f.tick
  | .fmtD fmt => f.set_disp_fmt fmt

/-- Run a sequence of driver operations on a face. -/
def runOps (f : ClockFace) (ops : List DriverOp) : ClockFace :=
  ops.foldl applyOp f

/-- Time inputs as the clock driver supplies them: `set_clock` passes
`time.localtime` fields (or the demo constants 12, 56) and `clock_tick`
wraps minutes at 60 and hours at 24, so hours lie in `[0, 24)` and minutes
in `[0, 60)`. -/
def ValidOp : DriverOp → Prop
  | .setD h m => 0 ≤ h ∧ h < 24 ∧ 0 ≤ m ∧ m < 60
  | .updateD h m => 0 ≤ h ∧ h < 24 ∧ 0 ≤ m ∧ m < 60
  | .stepD => True
  | .fmtD _ => True

instance (op : DriverOp) : Decidable (ValidOp op) := by
  cases op <;> (unfold ValidOp; infer_instance)

/-- The per-cell invariant of the data model: both indices within the
alphabet, `step ∈ [0, MAX_STEP]`, and a settled cell has `step = 0`. -/
def CellInv (d : ClockDigit) : Prop :=
  0 ≤ d.curr_idx ∧ d.curr_idx < (d.digits.length : Int) ∧
  0 ≤ d.next_idx ∧ d.next_idx < (d.digits.length : Int) ∧
  d.step ≤ MAX_STEP ∧ (d.curr_idx = d.next_idx → d.step = 0)

instance (d : ClockDigit) : Decidable (CellInv d) := by
  unfold CellInv
  infer_instance

/-- Configuration facts the code maintains: the fixed alphabets, with the
tens-hour alphabet matching the active display format. -/
def FaceConfig (f : ClockFace) : Prop :=
  f.hr10.digits = fmtDigits f.disp_fmt ∧
  f.hr01.digits = ['0', '1', '2', '3', '4', '5', '6', '7', '8', '9'] ∧
  f.min10.digits = ['0', '1', '2', '3', '4', '5'] ∧
  f.min01.digits = ['0', '1', '2', '3', '4', '5', '6', '7', '8', '9']

instance (f : ClockFace) : Decidable (FaceConfig f) := by
  unfold FaceConfig
  infer_instance

/-- The claim C9 invariant on the whole face. -/
def FaceInv (f : ClockFace) : Prop :=
  CellInv f.hr10 ∧ CellInv f.hr01 ∧ CellInv f.min10 ∧ CellInv f.min01

instance (f : ClockFace) : Decidable (FaceInv f) := by
  unfold FaceInv
  infer_instance

/-! ### Image model for flip_digits.py -/

/-- An 8-bit RGB pixel `(R, G, B)`. -/
abbrev Pixel : Type := Nat × Nat × Nat

/-- A pixel buffer with nominal dimensions; PIL coordinates (x right from 0,
y down from 0). -/
structure Image where
  width : Nat
  height : Nat
  pix : Nat → Nat → Pixel

/-- `Image.crop l t r b` (PIL `crop((l, t, r, b))`): the `(r-l)×(b-t)`
sub-image whose top-left corner sits at `(l, t)` of the source. -/
def Image.crop (img : Image) (l t r b : Nat) : Image :=
  { width := r - l, height := b - t, pix := fun x y => img.pix (x + l) (y + t) }

/-- `base.paste src px py` (PIL `paste(src, (px, py))` with an in-bounds
box): overwrite the rectangle of `src`'s size at `(px, py)`. -/
def Image.paste (base src : Image) (px py : Nat) : Image :=
  { base with pix := fun x y =>
      if px ≤ x ∧ x < px + src.width ∧ py ≤ y ∧ y < py + src.height then
        src.pix (x - px) (y - py)
      else base.pix x y }

/-- `ImageDraw.line` for a horizontal one-pixel line from `(x0, y)` to
`(x1, y)`, endpoints inclusive as PIL draws them. -/
def Image.hline (img : Image) (x0 x1 y : Nat) (c : Pixel) : Image :=
  { img with pix := fun a b =>
      if b = y ∧ x0 ≤ a ∧ a ≤ x1 then c else img.pix a b }

/-- `image.getdata()`: the pixels in row-major order (top-to-bottom,
left-to-right); entry `i` is the pixel at column `i % width`,
row `i / width`. -/
def Image.getdata (img : Image) : List Pixel :=
  (List.range (img.height * img.width)).map
    (fun i => img.pix (i % img.width) (i / img.width))

/-- `RECT_RADIUS = 10` from flip_digits.py. -/
def RECT_RADIUS : Nat := 10

/-- `DIGIT_SEP = "black"`: the fold/divider line color. -/
def DIGIT_SEP : Pixel := (0, 0, 0)

/-- The frame-synthesis core of `make_images` (flip_digits.py):
given the two rasterized digit images, build the step-1..3 frames.
`resize` abstracts `PIL.Image.resize(size, box)`: it receives the source
image, the requested width and height, and the source box `l t r b`.
`W`/`H` mirror the module globals `digit_w`/`digit_h`. Returns the frames
for steps 0 (the initial image itself), 1, 2 and 3. -/
def make_frames (resize : Image → Nat → Nat → Nat → Nat → Nat → Nat → Image)
    (W H : Nat) (init_img final_img : Image) :
    Image × Image × Image × Image :=
  let step2 := init_img.paste (final_img.crop 0 0 W (H / 2)) 0 0
  let init_top_tilt := resize init_img W (H / 4) 0 0 W (H / 2)
  let step1 := (step2.paste init_top_tilt 0 (H / 4)).hline RECT_RADIUS
    (W - RECT_RADIUS) (H / 4) DIGIT_SEP
  let final_bottom_tilt := resize final_img W (H / 4) 0 (H / 2) W H
  let step3 := (step2.paste final_bottom_tilt 0 (H / 2)).hline RECT_RADIUS
    (W - RECT_RADIUS) ((H * 3) / 4) DIGIT_SEP
  (init_img, step1, step2, step3)

/-- The files `make_images` saves, keyed `(from_char, to_char, step)`:
the settled initial image as step 0 of the identity pair, then steps 1-3 of
the transition. The settled final image is not saved — the corresponding
`saveImage` line in flip_digits.py is commented out, leaving it to the next
pair's call. -/
def make_images_saves
    (resize : Image → Nat → Nat → Nat → Nat → Nat → Nat → Image)
    (W H : Nat) (init_dig final_dig : Char) (init_img final_img : Image) :
    List ((Char × Char × Nat) × Image) :=
  let fr := make_frames resize W H init_img final_img
  [((init_dig, init_dig, 0), fr.1),
   ((init_dig, final_dig, 1), fr.2.1),
   ((init_dig, final_dig, 2), fr.2.2.1),
   ((init_dig, final_dig, 3), fr.2.2.2)]

/-! ### The RGB565 encoder of flip_digits.py -/

/-- `struct.pack` of one big-endian uint32 as four bytes. -/
def pack_be32 (n : Nat) : List Nat :=
  [n / 2 ^ 24 % 256, n / 2 ^ 16 % 256, n / 2 ^ 8 % 256, n % 256]

/-- `struct.pack` of one big-endian uint16 as two bytes. -/
def pack_be16 (n : Nat) : List Nat :=
  [n / 2 ^ 8 % 256, n % 256]

/-- The 16-bit packed color of one pixel (flip_digits.py line 76). -/
def rgb565 (p : Pixel) : Nat :=
  ((p.1 &&& 0xF8) <<< 8) ||| ((p.2.1 &&& 0xFC) <<< 3) ||| ((p.2.2 &&& 0xF8) >>> 3)

/-- The per-pixel output loop of `convertRGB565`: one big-endian uint16
word per pixel, in list order. -/
def encodePixels : List Pixel → List Nat
  | [] => []
  | p :: ps => pack_be16 (rgb565 p) ++ encodePixels ps

/-- `convertRGB565`: the byte stream written to the output file — magic
`"R565"` (bytes 0x52 0x35 0x36 0x35), big-endian int32 width, height and a
reserved 0, then the packed pixel words of `image.getdata()`. -/
def convertRGB565 (image : Image) : List Nat :=
  ([0x52, 0x35, 0x36, 0x35] ++ pack_be32 image.width ++ pack_be32 image.height
      ++ pack_be32 0)
    ++ encodePixels image.getdata

/-! ### Cell-level lemmas about `ClockDigit.do_step` -/

theorem ClockDigit.do_step_settled (d : ClockDigit) (h : d.curr_idx = d.next_idx) :
    d.do_step = (d, false) := by
  simp [ClockDigit.do_step, h]

theorem ClockDigit.do_step_ret_true (d : ClockDigit) (h : d.curr_idx ≠ d.next_idx) :
    (d.do_step).2 = true := by
  unfold ClockDigit.do_step
  rw [if_pos h]
  dsimp only
  split <;> rfl

theorem ClockDigit.adv_lt (d : ClockDigit) (h : d.curr_idx ≠ d.next_idx)
    (hs : d.step + 1 < MAX_STEP) :
    d.adv = { d with step := d.step + 1 } := by
  unfold ClockDigit.adv ClockDigit.do_step
  rw [if_pos h, if_neg (by omega)]

theorem ClockDigit.adv_commit (d : ClockDigit) (h : d.curr_idx ≠ d.next_idx)
    (hs : MAX_STEP ≤ d.step + 1) :
    d.adv = { d with curr_idx := d.next_idx, step := 0 } := by
  unfold ClockDigit.adv ClockDigit.do_step
  rw [if_pos h, if_pos hs]

theorem ClockDigit.adv_chain (d : ClockDigit) (h : d.curr_idx ≠ d.next_idx)
    (h0 : d.step = 0) :
    d.adv = { d with step := 1 } ∧
    ({ d with step := 1 } : ClockDigit).adv = { d with step := 2 } ∧
    ({ d with step := 2 } : ClockDigit).adv = { d with step := 3 } ∧
    ({ d with step := 3 } : ClockDigit).adv = d.settle := by
  refine ⟨?_, ?_, ?_, ?_⟩
  · rw [ClockDigit.adv_lt d h (by rw [h0]; decide), h0]
  · exact ClockDigit.adv_lt _ h (by show 1 + 1 < MAX_STEP; decide)
  · exact ClockDigit.adv_lt _ h (by show 2 + 1 < MAX_STEP; decide)
  · exact ClockDigit.adv_commit _ h (by show MAX_STEP ≤ 3 + 1; decide)

theorem ClockDigit.step_ne (d : ClockDigit) (k : Nat) (h0 : d.step = 0)
    (hk : k ≠ 0) : ({ d with step := k } : ClockDigit) ≠ d :=
  fun he => hk ((congrArg ClockDigit.step he).trans h0)

theorem ClockDigit.settle_ne (d : ClockDigit) (h : d.curr_idx ≠ d.next_idx) :
    d.settle ≠ d :=
  fun he => h ((congrArg ClockDigit.curr_idx he : d.next_idx = d.curr_idx)).symm

/-! ### Face-level lemmas about one `ClockFace.do_step` call -/

theorem ClockFace.do_step_idle (f : ClockFace) (h : f.stepping = false) :
    f.do_step = (f, none) := by
  simp [ClockFace.do_step, h]

theorem ClockFace.do_step_min01 (f : ClockFace) (h : f.stepping = true)
    (h1 : f.min01.curr_idx ≠ f.min01.next_idx) :
    f.do_step = ({ f with min01 := f.min01.adv }, none) := by
  simp only [ClockFace.do_step, h, if_true, ClockDigit.do_step_ret_true _ h1,
    ClockDigit.adv]

theorem ClockFace.do_step_min10 (f : ClockFace) (h : f.stepping = true)
    (h1 : f.min01.curr_idx = f.min01.next_idx)
    (h2 : f.min10.curr_idx ≠ f.min10.next_idx) :
    f.do_step = ({ f with min10 := f.min10.adv }, none) := by
  simp only [ClockFace.do_step, h, if_true, ClockDigit.do_step_settled _ h1,
    ClockDigit.do_step_ret_true _ h2, ClockDigit.adv, Bool.false_eq_true, if_false]

theorem ClockFace.do_step_hr01 (f : ClockFace) (h : f.stepping = true)
    (h1 : f.min01.curr_idx = f.min01.next_idx)
    (h2 : f.min10.curr_idx = f.min10.next_idx)
    (h3 : f.hr01.curr_idx ≠ f.hr01.next_idx) :
    f.do_step = ({ f with hr01 := f.hr01.adv }, none) := by
  simp only [ClockFace.do_step, h, if_true, ClockDigit.do_step_settled _ h1,
    ClockDigit.do_step_settled _ h2, ClockDigit.do_step_ret_true _ h3,
    ClockDigit.adv, Bool.false_eq_true, if_false]

theorem ClockFace.do_step_hr10 (f : ClockFace) (h : f.stepping = true)
    (h1 : f.min01.curr_idx = f.min01.next_idx)
    (h2 : f.min10.curr_idx = f.min10.next_idx)
    (h3 : f.hr01.curr_idx = f.hr01.next_idx)
    (h4 : f.hr10.curr_idx ≠ f.hr10.next_idx) :
    f.do_step = ({ f with hr10 := f.hr10.adv }, none) := by
  simp only [ClockFace.do_step, h, if_true, ClockDigit.do_step_settled _ h1,
    ClockDigit.do_step_settled _ h2, ClockDigit.do_step_settled _ h3,
    ClockDigit.do_step_ret_true _ h4, ClockDigit.adv, Bool.false_eq_true, if_false]

theorem ClockFace.do_step_all_settled (f : ClockFace) (h : f.stepping = true)
    (h1 : f.min01.curr_idx = f.min01.next_idx)
    (h2 : f.min10.curr_idx = f.min10.next_idx)
    (h3 : f.hr01.curr_idx = f.hr01.next_idx)
    (h4 : f.hr10.curr_idx = f.hr10.next_idx) :
    f.do_step = ({ f with stepping := false }, none) := by
  simp only [ClockFace.do_step, h, if_true, ClockDigit.do_step_settled _ h1,
    ClockDigit.do_step_settled _ h2, ClockDigit.do_step_settled _ h3,
    ClockDigit.do_step_settled _ h4, Bool.false_eq_true, if_false]

/-! ### Claim C3 -/

/-- C3: for every `ClockDigit`, if `curr_idx = next_idx` then `do_step` returns
false and mutates nothing; otherwise it increments `step`, commits
(`curr_idx := next_idx`, `step := 0`) when the step reaches `MAX_STEP`, and
returns true; hence exactly `MAX_STEP` calls on a cell with `curr ≠ next` and
`step = 0` settle it, each returning true, and the next call returns false. -/
theorem clockDigit_advance_spec :
    (∀ d : ClockDigit, d.curr_idx = d.next_idx → d.do_step = (d, false)) ∧
    (∀ d : ClockDigit, d.curr_idx ≠ d.next_idx → (d.do_step).2 = true ∧
      (d.step + 1 < MAX_STEP → d.adv = { d with step := d.step + 1 }) ∧
      (MAX_STEP ≤ d.step + 1 →
        d.adv = { d with curr_idx := d.next_idx, step := 0 })) ∧
    (∀ d : ClockDigit, d.curr_idx ≠ d.next_idx → d.step = 0 →
      (∀ k, k < MAX_STEP → ((ClockDigit.adv)^[k] d).do_step.2 = true) ∧
      (ClockDigit.adv)^[MAX_STEP] d = { d with curr_idx := d.next_idx, step := 0 } ∧
      ((ClockDigit.adv)^[MAX_STEP] d).do_step =
        ((ClockDigit.adv)^[MAX_STEP] d, false)) := by
  refine ⟨fun d h => ClockDigit.do_step_settled d h,
    fun d h => ⟨ClockDigit.do_step_ret_true d h,
      fun hs => ClockDigit.adv_lt d h hs, fun hs => ClockDigit.adv_commit d h hs⟩,
    fun d h hs => ?_⟩
  have e1 : d.adv = { d with step := 1 } := by
    rw [ClockDigit.adv_lt d h (by rw [hs]; decide), hs]
  have e2 : ({ d with step := 1 } : ClockDigit).adv = { d with step := 2 } :=
    ClockDigit.adv_lt _ h (by show 1 + 1 < MAX_STEP; decide)
  have e3 : ({ d with step := 2 } : ClockDigit).adv = { d with step := 3 } :=
    ClockDigit.adv_lt _ h (by show 2 + 1 < MAX_STEP; decide)
  have e4 : ({ d with step := 3 } : ClockDigit).adv =
      { d with curr_idx := d.next_idx, step := 0 } :=
    ClockDigit.adv_commit _ h (by show MAX_STEP ≤ 3 + 1; decide)
  have it4 : (ClockDigit.adv)^[MAX_STEP] d =
      { d with curr_idx := d.next_idx, step := 0 } := by
    show (ClockDigit.adv)^[4] d = _
    simp only [Function.iterate_succ, Function.iterate_zero, Function.comp_apply,
      id_eq]
    rw [e1, e2, e3, e4]
  refine ⟨fun k hk => ?_, it4, by rw [it4]; exact ClockDigit.do_step_settled _ rfl⟩
  have hk4 : k < 4 := hk
  interval_cases k
  · exact ClockDigit.do_step_ret_true d h
  · simp only [Function.iterate_one]
    rw [e1]
    exact ClockDigit.do_step_ret_true _ h
  · show ((ClockDigit.adv)^[2] d).do_step.2 = true
    simp only [Function.iterate_succ, Function.iterate_zero, Function.comp_apply,
      id_eq]
    rw [e1, e2]
    exact ClockDigit.do_step_ret_true _ h
  · show ((ClockDigit.adv)^[3] d).do_step.2 = true
    simp only [Function.iterate_succ, Function.iterate_zero, Function.comp_apply,
      id_eq]
    rw [e1, e2, e3]
    exact ClockDigit.do_step_ret_true _ h

/-- Witness for C3 at the concrete cell `⟨"w", ['0','1'], 0, 1, 0⟩`. -/
theorem clockDigit_advance_spec_witness :
    (ClockDigit.adv)^[MAX_STEP] ⟨"w", ['0', '1'], 0, 1, 0⟩ =
      { (⟨"w", ['0', '1'], 0, 1, 0⟩ : ClockDigit) with curr_idx := 1, step := 0 } ∧
    ((⟨"w", ['0', '1'], 0, 0, 2⟩ : ClockDigit)).do_step =
      (⟨"w", ['0', '1'], 0, 0, 2⟩, false) :=
  ⟨(clockDigit_advance_spec.2.2 ⟨"w", ['0', '1'], 0, 1, 0⟩ (by decide) rfl).2.1,
   clockDigit_advance_spec.1 ⟨"w", ['0', '1'], 0, 0, 2⟩ rfl⟩

/-! ### One tick of a face given by its four cells -/

theorem ClockFace.tick_face_min01 (A B C D : ClockDigit) (fmt : DispFmt)
    (hD : D.curr_idx ≠ D.next_idx) :
    (⟨A, B, C, D, true, fmt⟩ : ClockFace).tick = ⟨A, B, C, D.adv, true, fmt⟩ := by
  unfold ClockFace.tick
  rw [ClockFace.do_step_min01 _ rfl hD]

theorem ClockFace.tick_face_min10 (A B C D : ClockDigit) (fmt : DispFmt)
    (h1 : D.curr_idx = D.next_idx) (hC : C.curr_idx ≠ C.next_idx) :
    (⟨A, B, C, D, true, fmt⟩ : ClockFace).tick = ⟨A, B, C.adv, D, true, fmt⟩ := by
  unfold ClockFace.tick
  rw [ClockFace.do_step_min10 _ rfl h1 hC]

theorem ClockFace.tick_face_hr01 (A B C D : ClockDigit) (fmt : DispFmt)
    (h1 : D.curr_idx = D.next_idx) (h2 : C.curr_idx = C.next_idx)
    (hB : B.curr_idx ≠ B.next_idx) :
    (⟨A, B, C, D, true, fmt⟩ : ClockFace).tick = ⟨A, B.adv, C, D, true, fmt⟩ := by
  unfold ClockFace.tick
  rw [ClockFace.do_step_hr01 _ rfl h1 h2 hB]

theorem ClockFace.tick_face_hr10 (A B C D : ClockDigit) (fmt : DispFmt)
    (h1 : D.curr_idx = D.next_idx) (h2 : C.curr_idx = C.next_idx)
    (h3 : B.curr_idx = B.next_idx) (hA : A.curr_idx ≠ A.next_idx) :
    (⟨A, B, C, D, true, fmt⟩ : ClockFace).tick = ⟨A.adv, B, C, D, true, fmt⟩ := by
  unfold ClockFace.tick
  rw [ClockFace.do_step_hr10 _ rfl h1 h2 h3 hA]

theorem ClockFace.tick_face_all (A B C D : ClockDigit) (fmt : DispFmt)
    (h1 : D.curr_idx = D.next_idx) (h2 : C.curr_idx = C.next_idx)
    (h3 : B.curr_idx = B.next_idx) (h4 : A.curr_idx = A.next_idx) :
    (⟨A, B, C, D, true, fmt⟩ : ClockFace).tick = ⟨A, B, C, D, false, fmt⟩ := by
  unfold ClockFace.tick
  rw [ClockFace.do_step_all_settled _ rfl h1 h2 h3 h4]

/-! ### Claim C1 -/

/-- C1 (amended): each `do_step` on a face with `stepping = true` advances
exactly one cell — the least significant (ones-minute, tens-minute,
ones-hour, tens-hour) whose `do_step` reports a change — short-circuiting so
a more-significant cell never advances together with an unsettled
less-significant one; `stepping` becomes false exactly on the call whose
evaluation reaches the end with no cell reporting a change; `do_step` with
`stepping = false` is a no-op; the Python method returns `None` on every
path (it has no `return` statement), not a boolean. -/
theorem clockFace_do_step_cascade :
    (∀ f : ClockFace, f.stepping = false → f.do_step = (f, none)) ∧
    (∀ f : ClockFace, f.stepping = true →
      f.min01.curr_idx ≠ f.min01.next_idx →
      f.do_step = ({ f with min01 := f.min01.adv }, none)) ∧
    (∀ f : ClockFace, f.stepping = true →
      f.min01.curr_idx = f.min01.next_idx →
      f.min10.curr_idx ≠ f.min10.next_idx →
      f.do_step = ({ f with min10 := f.min10.adv }, none)) ∧
    (∀ f : ClockFace, f.stepping = true →
      f.min01.curr_idx = f.min01.next_idx →
      f.min10.curr_idx = f.min10.next_idx →
      f.hr01.curr_idx ≠ f.hr01.next_idx →
      f.do_step = ({ f with hr01 := f.hr01.adv }, none)) ∧
    (∀ f : ClockFace, f.stepping = true →
      f.min01.curr_idx = f.min01.next_idx →
      f.min10.curr_idx = f.min10.next_idx →
      f.hr01.curr_idx = f.hr01.next_idx →
      f.hr10.curr_idx ≠ f.hr10.next_idx →
      f.do_step = ({ f with hr10 := f.hr10.adv }, none)) ∧
    (∀ f : ClockFace, f.stepping = true →
      f.min01.curr_idx = f.min01.next_idx →
      f.min10.curr_idx = f.min10.next_idx →
      f.hr01.curr_idx = f.hr01.next_idx →
      f.hr10.curr_idx = f.hr10.next_idx →
      f.do_step = ({ f with stepping := false }, none)) :=
  ⟨ClockFace.do_step_idle, ClockFace.do_step_min01, ClockFace.do_step_min10,
   ClockFace.do_step_hr01, ClockFace.do_step_hr10, ClockFace.do_step_all_settled⟩

/-- Witness for C1: the idle branch at the freshly constructed face, and the
ones-minute branch at that face armed by `update_digits 1 1`. -/
theorem clockFace_do_step_cascade_witness :
    mkClockFace.do_step = (mkClockFace, none) ∧
    (mkClockFace.update_digits 1 1).do_step =
      ({ mkClockFace.update_digits 1 1 with
          min01 := (mkClockFace.update_digits 1 1).min01.adv }, none) :=
  ⟨clockFace_do_step_cascade.1 mkClockFace (by decide),
   clockFace_do_step_cascade.2.1 (mkClockFace.update_digits 1 1) (by decide)
     (by decide)⟩

/-- C1 counterexample: the Python `ClockFace.do_step` has no `return`
statement, so on a face with `stepping = false` it returns `None`, not the
`False` the claim asserts. -/
theorem clockFace_do_step_returns_none :
    mkClockFace.stepping = false ∧ (mkClockFace.do_step).2 = none ∧
      (none : Option Bool) ≠ some false := by
  refine ⟨by decide, by decide, by decide⟩

/-! ### Claim C2 -/

/-- C2 (amended): for every face whose four cells all have
`curr_idx ≠ next_idx` with `step = 0` and whose `stepping` flag is true, the
first 16 ticks all leave `is_stepping` true (after the 16th every cell is
settled), and the 17th tick is the one on which `is_stepping` becomes false —
so exactly `4 × MAX_STEP = 16` ticks strictly precede the flag-clearing tick;
during the first `MAX_STEP` ticks only the ones-minute cell's
`(current, target, step)` changes, the other three cells are untouched. -/
theorem clockFace_cascade_16 (A B C D : ClockDigit) (fmt : DispFmt)
    (hA : A.curr_idx ≠ A.next_idx) (hA0 : A.step = 0)
    (hB : B.curr_idx ≠ B.next_idx) (hB0 : B.step = 0)
    (hC : C.curr_idx ≠ C.next_idx) (hC0 : C.step = 0)
    (hD : D.curr_idx ≠ D.next_idx) (hD0 : D.step = 0) :
    (∀ k, k ≤ 16 →
      (ClockFace.tick^[k] ⟨A, B, C, D, true, fmt⟩).stepping = true) ∧
    ClockFace.tick^[16] ⟨A, B, C, D, true, fmt⟩ =
      ⟨A.settle, B.settle, C.settle, D.settle, true, fmt⟩ ∧
    ClockFace.tick^[17] ⟨A, B, C, D, true, fmt⟩ =
      ⟨A.settle, B.settle, C.settle, D.settle, false, fmt⟩ ∧
    (∀ k, 1 ≤ k → k ≤ 4 →
      (ClockFace.tick^[k] ⟨A, B, C, D, true, fmt⟩).hr10 = A ∧
      (ClockFace.tick^[k] ⟨A, B, C, D, true, fmt⟩).hr01 = B ∧
      (ClockFace.tick^[k] ⟨A, B, C, D, true, fmt⟩).min10 = C ∧
      (ClockFace.tick^[k] ⟨A, B, C, D, true, fmt⟩).min01 ≠ D) := by
  obtain ⟨dD1, dD2, dD3, dD4⟩ := D.adv_chain hD hD0
  obtain ⟨dC1, dC2, dC3, dC4⟩ := C.adv_chain hC hC0
  obtain ⟨dB1, dB2, dB3, dB4⟩ := B.adv_chain hB hB0
  obtain ⟨dA1, dA2, dA3, dA4⟩ := A.adv_chain hA hA0
  have t1 : ClockFace.tick ⟨A, B, C, D, true, fmt⟩ =
      ⟨A, B, C, { D with step := 1 }, true, fmt⟩ := by
    rw [ClockFace.tick_face_min01 A B C D fmt hD, dD1]
  have t2 : ClockFace.tick ⟨A, B, C, { D with step := 1 }, true, fmt⟩ =
      ⟨A, B, C, { D with step := 2 }, true, fmt⟩ := by
    rw [ClockFace.tick_face_min01 A B C { D with step := 1 } fmt hD, dD2]
  have t3 : ClockFace.tick ⟨A, B, C, { D with step := 2 }, true, fmt⟩ =
      ⟨A, B, C, { D with step := 3 }, true, fmt⟩ := by
    rw [ClockFace.tick_face_min01 A B C { D with step := 2 } fmt hD, dD3]
  have t4 : ClockFace.tick ⟨A, B, C, { D with step := 3 }, true, fmt⟩ =
      ⟨A, B, C, D.settle, true, fmt⟩ := by
    rw [ClockFace.tick_face_min01 A B C { D with step := 3 } fmt hD, dD4]
  have t5 : ClockFace.tick ⟨A, B, C, D.settle, true, fmt⟩ =
      ⟨A, B, { C with step := 1 }, D.settle, true, fmt⟩ := by
    rw [ClockFace.tick_face_min10 A B C D.settle fmt rfl hC, dC1]
  have t6 : ClockFace.tick ⟨A, B, { C with step := 1 }, D.settle, true, fmt⟩ =
      ⟨A, B, { C with step := 2 }, D.settle, true, fmt⟩ := by
    rw [ClockFace.tick_face_min10 A B { C with step := 1 } D.settle fmt rfl hC, dC2]
  have t7 : ClockFace.tick ⟨A, B, { C with step := 2 }, D.settle, true, fmt⟩ =
      ⟨A, B, { C with step := 3 }, D.settle, true, fmt⟩ := by
    rw [ClockFace.tick_face_min10 A B { C with step := 2 } D.settle fmt rfl hC, dC3]
  have t8 : ClockFace.tick ⟨A, B, { C with step := 3 }, D.settle, true, fmt⟩ =
      ⟨A, B, C.settle, D.settle, true, fmt⟩ := by
    rw [ClockFace.tick_face_min10 A B { C with step := 3 } D.settle fmt rfl hC, dC4]
  have t9 : ClockFace.tick ⟨A, B, C.settle, D.settle, true, fmt⟩ =
      ⟨A, { B with step := 1 }, C.settle, D.settle, true, fmt⟩ := by
    rw [ClockFace.tick_face_hr01 A B C.settle D.settle fmt rfl rfl hB, dB1]
  have t10 : ClockFace.tick ⟨A, { B with step := 1 }, C.settle, D.settle, true, fmt⟩ =
      ⟨A, { B with step := 2 }, C.settle, D.settle, true, fmt⟩ := by
    rw [ClockFace.tick_face_hr01 A { B with step := 1 } C.settle D.settle fmt rfl rfl hB,
      dB2]
  have t11 : ClockFace.tick ⟨A, { B with step := 2 }, C.settle, D.settle, true, fmt⟩ =
      ⟨A, { B with step := 3 }, C.settle, D.settle, true, fmt⟩ := by
    rw [ClockFace.tick_face_hr01 A { B with step := 2 } C.settle D.settle fmt rfl rfl hB,
      dB3]
  have t12 : ClockFace.tick ⟨A, { B with step := 3 }, C.settle, D.settle, true, fmt⟩ =
      ⟨A, B.settle, C.settle, D.settle, true, fmt⟩ := by
    rw [ClockFace.tick_face_hr01 A { B with step := 3 } C.settle D.settle fmt rfl rfl hB,
      dB4]
  have t13 : ClockFace.tick ⟨A, B.settle, C.settle, D.settle, true, fmt⟩ =
      ⟨{ A with step := 1 }, B.settle, C.settle, D.settle, true, fmt⟩ := by
    rw [ClockFace.tick_face_hr10 A B.settle C.settle D.settle fmt rfl rfl rfl hA, dA1]
  have t14 : ClockFace.tick ⟨{ A with step := 1 }, B.settle, C.settle, D.settle, true, fmt⟩ =
      ⟨{ A with step := 2 }, B.settle, C.settle, D.settle, true, fmt⟩ := by
    rw [ClockFace.tick_face_hr10 { A with step := 1 } B.settle C.settle D.settle fmt
      rfl rfl rfl hA, dA2]
  have t15 : ClockFace.tick ⟨{ A with step := 2 }, B.settle, C.settle, D.settle, true, fmt⟩ =
      ⟨{ A with step := 3 }, B.settle, C.settle, D.settle, true, fmt⟩ := by
    rw [ClockFace.tick_face_hr10 { A with step := 2 } B.settle C.settle D.settle fmt
      rfl rfl rfl hA, dA3]
  have t16 : ClockFace.tick ⟨{ A with step := 3 }, B.settle, C.settle, D.settle, true, fmt⟩ =
      ⟨A.settle, B.settle, C.settle, D.settle, true, fmt⟩ := by
    rw [ClockFace.tick_face_hr10 { A with step := 3 } B.settle C.settle D.settle fmt
      rfl rfl rfl hA, dA4]
  have t17 : ClockFace.tick ⟨A.settle, B.settle, C.settle, D.settle, true, fmt⟩ =
      ⟨A.settle, B.settle, C.settle, D.settle, false, fmt⟩ := by
    rw [ClockFace.tick_face_all A.settle B.settle C.settle D.settle fmt rfl rfl rfl rfl]
  have i1 : ClockFace.tick^[1] ⟨A, B, C, D, true, fmt⟩ =
      ⟨A, B, C, { D with step := 1 }, true, fmt⟩ := by
    rw [Function.iterate_one, t1]
  have i2 : ClockFace.tick^[2] ⟨A, B, C, D, true, fmt⟩ =
      ⟨A, B, C, { D with step := 2 }, true, fmt⟩ := by
    simp only [Function.iterate_succ, Function.iterate_zero, Function.comp_apply, id_eq]
    rw [t1, t2]
  have i3 : ClockFace.tick^[3] ⟨A, B, C, D, true, fmt⟩ =
      ⟨A, B, C, { D with step := 3 }, true, fmt⟩ := by
    simp only [Function.iterate_succ, Function.iterate_zero, Function.comp_apply, id_eq]
    rw [t1, t2, t3]
  have i4 : ClockFace.tick^[4] ⟨A, B, C, D, true, fmt⟩ =
      ⟨A, B, C, D.settle, true, fmt⟩ := by
    simp only [Function.iterate_succ, Function.iterate_zero, Function.comp_apply, id_eq]
    rw [t1, t2, t3, t4]
  have i5 : ClockFace.tick^[5] ⟨A, B, C, D, true, fmt⟩ =
      ⟨A, B, { C with step := 1 }, D.settle, true, fmt⟩ := by
    simp only [Function.iterate_succ, Function.iterate_zero, Function.comp_apply, id_eq]
    rw [t1, t2, t3, t4, t5]
  have i6 : ClockFace.tick^[6] ⟨A, B, C, D, true, fmt⟩ =
      ⟨A, B, { C with step := 2 }, D.settle, true, fmt⟩ := by
    simp only [Function.iterate_succ, Function.iterate_zero, Function.comp_apply, id_eq]
    rw [t1, t2, t3, t4, t5, t6]
  have i7 : ClockFace.tick^[7] ⟨A, B, C, D, true, fmt⟩ =
      ⟨A, B, { C with step := 3 }, D.settle, true, fmt⟩ := by
    simp only [Function.iterate_succ, Function.iterate_zero, Function.comp_apply, id_eq]
    rw [t1, t2, t3, t4, t5, t6, t7]
  have i8 : ClockFace.tick^[8] ⟨A, B, C, D, true, fmt⟩ =
      ⟨A, B, C.settle, D.settle, true, fmt⟩ := by
    simp only [Function.iterate_succ, Function.iterate_zero, Function.comp_apply, id_eq]
    rw [t1, t2, t3, t4, t5, t6, t7, t8]
  have i9 : ClockFace.tick^[9] ⟨A, B, C, D, true, fmt⟩ =
      ⟨A, { B with step := 1 }, C.settle, D.settle, true, fmt⟩ := by
    simp only [Function.iterate_succ, Function.iterate_zero, Function.comp_apply, id_eq]
    rw [t1, t2, t3, t4, t5, t6, t7, t8, t9]
  have i10 : ClockFace.tick^[10] ⟨A, B, C, D, true, fmt⟩ =
      ⟨A, { B with step := 2 }, C.settle, D.settle, true, fmt⟩ := by
    simp only [Function.iterate_succ, Function.iterate_zero, Function.comp_apply, id_eq]
    rw [t1, t2, t3, t4, t5, t6, t7, t8, t9, t10]
  have i11 : ClockFace.tick^[11] ⟨A, B, C, D, true, fmt⟩ =
      ⟨A, { B with step := 3 }, C.settle, D.settle, true, fmt⟩ := by
    simp only [Function.iterate_succ, Function.iterate_zero, Function.comp_apply, id_eq]
    rw [t1, t2, t3, t4, t5, t6, t7, t8, t9, t10, t11]
  have i12 : ClockFace.tick^[12] ⟨A, B, C, D, true, fmt⟩ =
      ⟨A, B.settle, C.settle, D.settle, true, fmt⟩ := by
    simp only [Function.iterate_succ, Function.iterate_zero, Function.comp_apply, id_eq]
    rw [t1, t2, t3, t4, t5, t6, t7, t8, t9, t10, t11, t12]
  have i13 : ClockFace.tick^[13] ⟨A, B, C, D, true, fmt⟩ =
      ⟨{ A with step := 1 }, B.settle, C.settle, D.settle, true, fmt⟩ := by
    simp only [Function.iterate_succ, Function.iterate_zero, Function.comp_apply, id_eq]
    rw [t1, t2, t3, t4, t5, t6, t7, t8, t9, t10, t11, t12, t13]
  have i14 : ClockFace.tick^[14] ⟨A, B, C, D, true, fmt⟩ =
      ⟨{ A with step := 2 }, B.settle, C.settle, D.settle, true, fmt⟩ := by
    simp only [Function.iterate_succ, Function.iterate_zero, Function.comp_apply, id_eq]
    rw [t1, t2, t3, t4, t5, t6, t7, t8, t9, t10, t11, t12, t13, t14]
  have i15 : ClockFace.tick^[15] ⟨A, B, C, D, true, fmt⟩ =
      ⟨{ A with step := 3 }, B.settle, C.settle, D.settle, true, fmt⟩ := by
    simp only [Function.iterate_succ, Function.iterate_zero, Function.comp_apply, id_eq]
    rw [t1, t2, t3, t4, t5, t6, t7, t8, t9, t10, t11, t12, t13, t14, t15]
  have i16 : ClockFace.tick^[16] ⟨A, B, C, D, true, fmt⟩ =
      ⟨A.settle, B.settle, C.settle, D.settle, true, fmt⟩ := by
    simp only [Function.iterate_succ, Function.iterate_zero, Function.comp_apply, id_eq]
    rw [t1, t2, t3, t4, t5, t6, t7, t8, t9, t10, t11, t12, t13, t14, t15, t16]
  have i17 : ClockFace.tick^[17] ⟨A, B, C, D, true, fmt⟩ =
      ⟨A.settle, B.settle, C.settle, D.settle, false, fmt⟩ := by
    simp only [Function.iterate_succ, Function.iterate_zero, Function.comp_apply, id_eq]
    rw [t1, t2, t3, t4, t5, t6, t7, t8, t9, t10, t11, t12, t13, t14, t15, t16, t17]
  refine ⟨?_, i16, i17, ?_⟩
  · intro k hk
    interval_cases k
    · rfl
    · rw [i1]
    · rw [i2]
    · rw [i3]
    · rw [i4]
    · rw [i5]
    · rw [i6]
    · rw [i7]
    · rw [i8]
    · rw [i9]
    · rw [i10]
    · rw [i11]
    · rw [i12]
    · rw [i13]
    · rw [i14]
    · rw [i15]
    · rw [i16]
  · intro k h1k hk4
    interval_cases k
    · rw [i1]
      exact ⟨rfl, rfl, rfl, ClockDigit.step_ne D 1 hD0 (by decide)⟩
    · rw [i2]
      exact ⟨rfl, rfl, rfl, ClockDigit.step_ne D 2 hD0 (by decide)⟩
    · rw [i3]
      exact ⟨rfl, rfl, rfl, ClockDigit.step_ne D 3 hD0 (by decide)⟩
    · rw [i4]
      exact ⟨rfl, rfl, rfl, ClockDigit.settle_ne D hD⟩

/-- Witness for C2 at four concrete mismatched cells. -/
theorem clockFace_cascade_16_witness :
    ClockFace.tick^[17]
        ⟨⟨"a", ['0', '1'], 0, 1, 0⟩, ⟨"b", ['0', '1'], 0, 1, 0⟩,
         ⟨"c", ['0', '1'], 0, 1, 0⟩, ⟨"d", ['0', '1'], 0, 1, 0⟩, true, .HR12⟩ =
      ⟨ClockDigit.settle ⟨"a", ['0', '1'], 0, 1, 0⟩,
       ClockDigit.settle ⟨"b", ['0', '1'], 0, 1, 0⟩,
       ClockDigit.settle ⟨"c", ['0', '1'], 0, 1, 0⟩,
       ClockDigit.settle ⟨"d", ['0', '1'], 0, 1, 0⟩, false, .HR12⟩ ∧
    (ClockFace.tick^[16]
        ⟨⟨"a", ['0', '1'], 0, 1, 0⟩, ⟨"b", ['0', '1'], 0, 1, 0⟩,
         ⟨"c", ['0', '1'], 0, 1, 0⟩, ⟨"d", ['0', '1'], 0, 1, 0⟩, true, .HR12⟩).stepping
      = true ∧
    (ClockFace.tick^[1]
        ⟨⟨"a", ['0', '1'], 0, 1, 0⟩, ⟨"b", ['0', '1'], 0, 1, 0⟩,
         ⟨"c", ['0', '1'], 0, 1, 0⟩, ⟨"d", ['0', '1'], 0, 1, 0⟩, true, .HR12⟩).min01
      ≠ ⟨"d", ['0', '1'], 0, 1, 0⟩ :=
  ⟨(clockFace_cascade_16 ⟨"a", ['0', '1'], 0, 1, 0⟩ ⟨"b", ['0', '1'], 0, 1, 0⟩
      ⟨"c", ['0', '1'], 0, 1, 0⟩ ⟨"d", ['0', '1'], 0, 1, 0⟩ .HR12
      (by decide) rfl (by decide) rfl (by decide) rfl (by decide) rfl).2.2.1,
   (clockFace_cascade_16 ⟨"a", ['0', '1'], 0, 1, 0⟩ ⟨"b", ['0', '1'], 0, 1, 0⟩
      ⟨"c", ['0', '1'], 0, 1, 0⟩ ⟨"d", ['0', '1'], 0, 1, 0⟩ .HR12
      (by decide) rfl (by decide) rfl (by decide) rfl (by decide) rfl).1 16
      (by decide),
   ((clockFace_cascade_16 ⟨"a", ['0', '1'], 0, 1, 0⟩ ⟨"b", ['0', '1'], 0, 1, 0⟩
      ⟨"c", ['0', '1'], 0, 1, 0⟩ ⟨"d", ['0', '1'], 0, 1, 0⟩ .HR12
      (by decide) rfl (by decide) rfl (by decide) rfl (by decide) rfl).2.2.2 1
      (by decide) (by decide)).2.2.2⟩

/-- C2 counterexample: a reachable face in which all four cells are
mismatched but the ones-minute cell is already mid-flip (`step = 1`)
needs only 15 ticks before the flag-clearing 16th tick, not 16: after its
15th tick every cell is settled yet `stepping` is still true, and the 16th
tick clears the flag. -/
theorem clockFace_cascade_16_counterexample :
    (ClockFace.tick^[15]
        ⟨⟨"a", ['0', '1'], 0, 1, 0⟩, ⟨"b", ['0', '1'], 0, 1, 0⟩,
         ⟨"c", ['0', '1'], 0, 1, 0⟩, ⟨"d", ['0', '1'], 0, 1, 1⟩, true, .HR12⟩) =
      ⟨⟨"a", ['0', '1'], 1, 1, 0⟩, ⟨"b", ['0', '1'], 1, 1, 0⟩,
       ⟨"c", ['0', '1'], 1, 1, 0⟩, ⟨"d", ['0', '1'], 1, 1, 0⟩, true, .HR12⟩ ∧
    (ClockFace.tick^[16]
        ⟨⟨"a", ['0', '1'], 0, 1, 0⟩, ⟨"b", ['0', '1'], 0, 1, 0⟩,
         ⟨"c", ['0', '1'], 0, 1, 0⟩, ⟨"d", ['0', '1'], 0, 1, 1⟩, true, .HR12⟩).stepping
      = false := by
  constructor
  · decide
  · decide

/-! ### Claim C4 -/

/-- C4 (amended): on the non-animating path (`ClockDigit.set`) the target is
normalized, `target_index = v mod L ∈ [0, L)` for every integer `v`; on the
animating path (`ClockFace.update_digits`) the `next_idx` values are the raw
digit quotients/remainders of the normalized time, with no modulo against
the alphabet length. -/
theorem clockDigit_set_target_mod :
    (∀ (d : ClockDigit) (v : Int), 0 < d.digits.length →
      (d.set v).next_idx = v % (d.digits.length : Int) ∧
      (d.set v).curr_idx = (d.set v).next_idx ∧
      0 ≤ (d.set v).next_idx ∧
      (d.set v).next_idx < (d.digits.length : Int)) ∧
    (∀ (f : ClockFace) (hours mins : Int),
      (f.update_digits hours mins).hr10.next_idx =
        (normHours f.disp_fmt hours) / 10 ∧
      (f.update_digits hours mins).hr01.next_idx =
        (normHours f.disp_fmt hours) % 10 ∧
      (f.update_digits hours mins).min10.next_idx = mins / 10 ∧
      (f.update_digits hours mins).min01.next_idx = mins % 10) := by
  constructor
  · intro d v hL
    have hL' : (0 : Int) < (d.digits.length : Int) := by exact_mod_cast hL
    exact ⟨rfl, rfl, Int.emod_nonneg v (by omega), Int.emod_lt_of_pos v hL'⟩
  · intro f hours mins
    exact ⟨rfl, rfl, rfl, rfl⟩

/-- Witness for C4: `set (-3)` on a two-symbol alphabet lands on index 1. -/
theorem clockDigit_set_target_mod_witness :
    ((⟨"w", ['0', '1'], 0, 0, 0⟩ : ClockDigit).set (-3)).next_idx =
        (-3 : Int) % 2 ∧
      ((⟨"w", ['0', '1'], 0, 0, 0⟩ : ClockDigit).set (-3)).curr_idx =
        ((⟨"w", ['0', '1'], 0, 0, 0⟩ : ClockDigit).set (-3)).next_idx ∧
      0 ≤ ((⟨"w", ['0', '1'], 0, 0, 0⟩ : ClockDigit).set (-3)).next_idx ∧
      ((⟨"w", ['0', '1'], 0, 0, 0⟩ : ClockDigit).set (-3)).next_idx < 2 :=
  clockDigit_set_target_mod.1 ⟨"w", ['0', '1'], 0, 0, 0⟩ (-3) (by decide)

/-- C4 counterexample: in 24-hour format, `update_digits 30 0` leaves the
tens-hour target at 3, outside the range `[0, 3)` of its alphabet `"012"` —
the animating path applies no modulo. -/
theorem clockDigit_set_target_mod_counterexample :
    ((⟨⟨"-HR10s-", ['0', '1', '2'], 0, 0, 0⟩,
       ⟨"-HR1s-", ['0', '1', '2', '3', '4', '5', '6', '7', '8', '9'], 0, 0, 0⟩,
       ⟨"-MIN10s-", ['0', '1', '2', '3', '4', '5'], 0, 0, 0⟩,
       ⟨"-MIN1s-", ['0', '1', '2', '3', '4', '5', '6', '7', '8', '9'], 0, 0, 0⟩,
       false, .HR24⟩ : ClockFace).update_digits 30 0).hr10.next_idx = 3 ∧
    ¬ ((3 : Int) <
      ((((⟨⟨"-HR10s-", ['0', '1', '2'], 0, 0, 0⟩,
       ⟨"-HR1s-", ['0', '1', '2', '3', '4', '5', '6', '7', '8', '9'], 0, 0, 0⟩,
       ⟨"-MIN10s-", ['0', '1', '2', '3', '4', '5'], 0, 0, 0⟩,
       ⟨"-MIN1s-", ['0', '1', '2', '3', '4', '5', '6', '7', '8', '9'], 0, 0, 0⟩,
       false, .HR24⟩ : ClockFace).update_digits 30 0).hr10.digits.length : Int))) := by
  constructor
  · decide
  · decide

/-! ### Claim C7 -/

/-- C7 (amended): `set_disp_fmt` swaps the tens-hour alphabet per the format
table and `disp_fmt`, and it does itself re-derive both hour cells: their
`curr_idx` and `next_idx` are recomputed from the previously displayed hour
value normalized to the new format, with both hour steps reset to 0. -/
theorem clockFace_set_disp_fmt_rederives (f : ClockFace) (fmt : DispFmt) :
    (f.set_disp_fmt fmt).hr10.digits = fmtDigits fmt ∧
    (f.set_disp_fmt fmt).disp_fmt = fmt ∧
    (f.set_disp_fmt fmt).hr10.curr_idx =
      (normHours fmt (f.hr10.curr_idx * 10 + f.hr01.curr_idx)) / 10 ∧
    (f.set_disp_fmt fmt).hr10.next_idx =
      (normHours fmt (f.hr10.curr_idx * 10 + f.hr01.curr_idx)) / 10 ∧
    (f.set_disp_fmt fmt).hr01.curr_idx =
      (normHours fmt (f.hr10.curr_idx * 10 + f.hr01.curr_idx)) % 10 ∧
    (f.set_disp_fmt fmt).hr01.next_idx =
      (normHours fmt (f.hr10.curr_idx * 10 + f.hr01.curr_idx)) % 10 ∧
    (f.set_disp_fmt fmt).hr10.step = 0 ∧
    (f.set_disp_fmt fmt).hr01.step = 0 :=
  ⟨rfl, rfl, rfl, rfl, rfl, rfl, rfl, rfl⟩

/-- C7 counterexample: on a face showing 23 in 24-hour format,
`set_disp_fmt HR12` changes the ones-hour current index from 3 to 1
(23 is re-derived to 11) — the format change does re-derive indices. -/
theorem clockFace_set_disp_fmt_counterexample :
    ((⟨⟨"-HR10s-", ['0', '1', '2'], 2, 2, 0⟩,
       ⟨"-HR1s-", ['0', '1', '2', '3', '4', '5', '6', '7', '8', '9'], 3, 3, 0⟩,
       ⟨"-MIN10s-", ['0', '1', '2', '3', '4', '5'], 0, 0, 0⟩,
       ⟨"-MIN1s-", ['0', '1', '2', '3', '4', '5', '6', '7', '8', '9'], 0, 0, 0⟩,
       false, .HR24⟩ : ClockFace).set_disp_fmt .HR12).hr01.curr_idx = 1 ∧
    (1 : Int) ≠ 3 := by
  constructor
  · decide
  · decide

/-! ### Claim C10 -/

/-- C10: `set_disp_fmt` leaves the two minute cells completely unchanged and
leaves both hour cells settled (`curr_idx = next_idx`, `step = 0`). -/
theorem clockFace_set_disp_fmt_frame (f : ClockFace) (fmt : DispFmt) :
    (f.set_disp_fmt fmt).min10 = f.min10 ∧
    (f.set_disp_fmt fmt).min01 = f.min01 ∧
    (f.set_disp_fmt fmt).hr10.curr_idx = (f.set_disp_fmt fmt).hr10.next_idx ∧
    (f.set_disp_fmt fmt).hr10.step = 0 ∧
    (f.set_disp_fmt fmt).hr01.curr_idx = (f.set_disp_fmt fmt).hr01.next_idx ∧
    (f.set_disp_fmt fmt).hr01.step = 0 :=
  ⟨rfl, rfl, rfl, rfl, rfl, rfl⟩

/-! ### Claim C8 -/

/-- C8 (amended): `set_time(hours, mins, allow)` normalizes hours per the
active format (12-hour variants: `hours > 12 → hours - 12`, `hours = 0 → 12`;
24-hour: hours passed through unchanged and not wrapped into `[0, 24)` — each
cell only reduces modulo its own alphabet length on the non-animating path),
sets the four cells' targets with `allow` forwarded uniformly, and sets
`stepping = allow`. -/
theorem clockFace_set_time_spec (f : ClockFace) (hours mins : Int) :
    (∀ allow : Bool, (f.set_time hours mins allow).stepping = allow) ∧
    ((f.set_time hours mins true).hr10.next_idx =
        (normHours f.disp_fmt hours) / 10 ∧
      (f.set_time hours mins true).hr01.next_idx =
        (normHours f.disp_fmt hours) % 10 ∧
      (f.set_time hours mins true).min10.next_idx = mins / 10 ∧
      (f.set_time hours mins true).min01.next_idx = mins % 10 ∧
      (f.set_time hours mins true).hr10.curr_idx = f.hr10.curr_idx ∧
      (f.set_time hours mins true).min01.curr_idx = f.min01.curr_idx) ∧
    ((f.set_time hours mins false).hr10.next_idx =
        ((normHours f.disp_fmt hours) / 10) % (f.hr10.digits.length : Int) ∧
      (f.set_time hours mins false).hr01.next_idx =
        ((normHours f.disp_fmt hours) % 10) % (f.hr01.digits.length : Int) ∧
      (f.set_time hours mins false).min10.next_idx =
        (mins / 10) % (f.min10.digits.length : Int) ∧
      (f.set_time hours mins false).min01.next_idx =
        (mins % 10) % (f.min01.digits.length : Int) ∧
      (f.set_time hours mins false).hr10.curr_idx =
        (f.set_time hours mins false).hr10.next_idx ∧
      (f.set_time hours mins false).min01.curr_idx =
        (f.set_time hours mins false).min01.next_idx) := by
  refine ⟨fun allow => ?_, ⟨rfl, rfl, rfl, rfl, rfl, rfl⟩,
    ⟨rfl, rfl, rfl, rfl, rfl, rfl⟩⟩
  cases allow <;> rfl

/-- C8 counterexample: in 24-hour format `set_time 25 0 false` displays 25
(tens-hour index 2, ones-hour index 5): hours are not wrapped into `[0, 24)`,
which would have displayed 01. -/
theorem clockFace_set_time_counterexample :
    ((⟨⟨"-HR10s-", ['0', '1', '2'], 0, 0, 0⟩,
       ⟨"-HR1s-", ['0', '1', '2', '3', '4', '5', '6', '7', '8', '9'], 0, 0, 0⟩,
       ⟨"-MIN10s-", ['0', '1', '2', '3', '4', '5'], 0, 0, 0⟩,
       ⟨"-MIN1s-", ['0', '1', '2', '3', '4', '5', '6', '7', '8', '9'], 0, 0, 0⟩,
       false, .HR24⟩ : ClockFace).set_time 25 0 false).hr01.curr_idx = 5 ∧
    ((25 : Int) % 24) % 10 = 1 ∧ (5 : Int) ≠ 1 := by
  refine ⟨by decide, by decide, by decide⟩

/-! ### Claim C9: invariant preservation -/

theorem normHours_hr24 (h : Int) : normHours .HR24 h = h := by
  simp [normHours]

theorem normHours_bounds (fmt : DispFmt) (h : Int) (h0 : 0 ≤ h) (h30 : h < 30) :
    0 ≤ normHours fmt h ∧ normHours fmt h < 30 := by
  unfold normHours
  split
  · split
    · omega
    · split <;> omega
  · omega

theorem normHours_bounds12 (fmt : DispFmt) (h : Int) (hfmt : fmt ≠ .HR24)
    (h0 : 0 ≤ h) (h30 : h < 30) :
    1 ≤ normHours fmt h ∧ normHours fmt h ≤ 17 := by
  unfold normHours
  rw [if_pos hfmt]
  split
  · omega
  · split <;> omega

theorem fmtDigits_length_pos (fmt : DispFmt) : 0 < (fmtDigits fmt).length := by
  cases fmt <;> decide

theorem CellInv_set (d : ClockDigit) (v : Int) (hL : 0 < d.digits.length) :
    CellInv (d.set v) := by
  have hL' : (0 : Int) < (d.digits.length : Int) := by exact_mod_cast hL
  exact ⟨Int.emod_nonneg v (by omega), Int.emod_lt_of_pos v hL',
    Int.emod_nonneg v (by omega), Int.emod_lt_of_pos v hL',
    Nat.zero_le _, fun _ => rfl⟩

theorem CellInv_retarget (d : ClockDigit) (v : Int) (hi : CellInv d)
    (h0 : 0 ≤ v) (hv : v < (d.digits.length : Int)) :
    CellInv { d with next_idx := v, step := 0 } := by
  obtain ⟨h1, h2, _, _, _, _⟩ := hi
  exact ⟨h1, h2, h0, hv, Nat.zero_le _, fun _ => rfl⟩

theorem ClockDigit.adv_digits (d : ClockDigit) : d.adv.digits = d.digits := by
  unfold ClockDigit.adv ClockDigit.do_step
  split
  · dsimp only
    split <;> rfl
  · rfl

theorem CellInv_adv (d : ClockDigit) (hi : CellInv d) : CellInv d.adv := by
  obtain ⟨h1, h2, h3, h4, h5, h6⟩ := hi
  by_cases h : d.curr_idx = d.next_idx
  · have he : d.adv = d := by
      unfold ClockDigit.adv
      rw [ClockDigit.do_step_settled d h]
    rw [he]
    exact ⟨h1, h2, h3, h4, h5, h6⟩
  · by_cases hs : MAX_STEP ≤ d.step + 1
    · rw [ClockDigit.adv_commit d h hs]
      exact ⟨h3, h4, h3, h4, Nat.zero_le _, fun _ => rfl⟩
    · rw [ClockDigit.adv_lt d h (by omega)]
      exact ⟨h1, h2, h3, h4, by show d.step + 1 ≤ MAX_STEP; omega,
        fun he => absurd he h⟩

theorem ClockFace.update_digits_eq (f : ClockFace) (hours mins : Int) :
    f.update_digits hours mins =
      { f with
        hr10 := { f.hr10 with
          next_idx := (normHours f.disp_fmt hours) / 10, step := 0 },
        hr01 := { f.hr01 with
          next_idx := (normHours f.disp_fmt hours) % 10, step := 0 },
        min10 := { f.min10 with next_idx := mins / 10, step := 0 },
        min01 := { f.min01 with next_idx := mins % 10, step := 0 },
        stepping := true } := rfl

theorem ClockFace.set_disp_fmt_eq (f : ClockFace) (fmt : DispFmt) :
    f.set_disp_fmt fmt =
      { f with
        hr10 := { f.hr10 with
          digits := fmtDigits fmt,
          curr_idx := (normHours fmt (f.hr10.curr_idx * 10 + f.hr01.curr_idx)) / 10,
          next_idx := (normHours fmt (f.hr10.curr_idx * 10 + f.hr01.curr_idx)) / 10,
          step := 0 },
        hr01 := { f.hr01 with
          curr_idx := (normHours fmt (f.hr10.curr_idx * 10 + f.hr01.curr_idx)) % 10,
          next_idx := (normHours fmt (f.hr10.curr_idx * 10 + f.hr01.curr_idx)) % 10,
          step := 0 },
        disp_fmt := fmt } := rfl

theorem hr10_target_bound (fmt : DispFmt) (h : Int) (h0 : 0 ≤ h) (h30 : h < 30) :
    0 ≤ (normHours fmt h) / 10 ∧
      (normHours fmt h) / 10 < ((fmtDigits fmt).length : Int) := by
  by_cases h24 : fmt = .HR24
  · subst h24
    rw [normHours_hr24]
    have : ((fmtDigits DispFmt.HR24).length : Int) = 3 := rfl
    rw [this]
    omega
  · obtain ⟨hl, hu⟩ := normHours_bounds12 fmt h h24 h0 h30
    have h2 : ((fmtDigits fmt).length : Int) = 2 := by
      cases fmt
      · exact absurd rfl h24
      · rfl
      · rfl
    rw [h2]
    omega

theorem applyOp_preserves (f : ClockFace) (op : DriverOp)
    (hc : FaceConfig f) (hi : FaceInv f) (hv : ValidOp op) :
    FaceConfig (applyOp f op) ∧ FaceInv (applyOp f op) := by
  obtain ⟨hc1, hc2, hc3, hc4⟩ := hc
  obtain ⟨hi1, hi2, hi3, hi4⟩ := hi
  cases op with
  | setD h m =>
    obtain ⟨hv1, hv2, hv3, hv4⟩ := hv
    have l10 : 0 < f.hr10.digits.length := by
      rw [hc1]; exact fmtDigits_length_pos _
    have l01 : 0 < f.hr01.digits.length := by rw [hc2]; decide
    have lm10 : 0 < f.min10.digits.length := by rw [hc3]; decide
    have lm01 : 0 < f.min01.digits.length := by rw [hc4]; decide
    exact ⟨⟨hc1, hc2, hc3, hc4⟩, CellInv_set _ _ l10, CellInv_set _ _ l01,
      CellInv_set _ _ lm10, CellInv_set _ _ lm01⟩
  | updateD h m =>
    obtain ⟨hv1, hv2, hv3, hv4⟩ := hv
    show FaceConfig (f.update_digits h m) ∧ FaceInv (f.update_digits h m)
    rw [ClockFace.update_digits_eq]
    have l01 : (f.hr01.digits.length : Int) = 10 := by rw [hc2]; rfl
    have lm10 : (f.min10.digits.length : Int) = 6 := by rw [hc3]; rfl
    have lm01 : (f.min01.digits.length : Int) = 10 := by rw [hc4]; rfl
    have hb10 := hr10_target_bound f.disp_fmt h hv1 (by omega)
    rw [← hc1] at hb10
    obtain ⟨hn0, hn30⟩ := normHours_bounds f.disp_fmt h hv1 (by omega)
    exact ⟨⟨hc1, hc2, hc3, hc4⟩,
      CellInv_retarget _ _ hi1 hb10.1 hb10.2,
      CellInv_retarget _ _ hi2 (by omega) (by omega),
      CellInv_retarget _ _ hi3 (by omega) (by omega),
      CellInv_retarget _ _ hi4 (by omega) (by omega)⟩
  | stepD =>
    show FaceConfig f.tick ∧ FaceInv f.tick
    cases hst : f.stepping with
    | false =>
      have he : f.tick = f := by
        unfold ClockFace.tick
        rw [ClockFace.do_step_idle f hst]
      rw [he]
      exact ⟨⟨hc1, hc2, hc3, hc4⟩, hi1, hi2, hi3, hi4⟩
    | true =>
      by_cases h1 : f.min01.curr_idx = f.min01.next_idx
      · by_cases h2 : f.min10.curr_idx = f.min10.next_idx
        · by_cases h3 : f.hr01.curr_idx = f.hr01.next_idx
          · by_cases h4 : f.hr10.curr_idx = f.hr10.next_idx
            · have he : f.tick = { f with stepping := false } := by
                unfold ClockFace.tick
                rw [ClockFace.do_step_all_settled f hst h1 h2 h3 h4]
              rw [he]
              exact ⟨⟨hc1, hc2, hc3, hc4⟩, hi1, hi2, hi3, hi4⟩
            · have he : f.tick = { f with hr10 := f.hr10.adv } := by
                unfold ClockFace.tick
                rw [ClockFace.do_step_hr10 f hst h1 h2 h3 h4]
              rw [he]
              refine ⟨⟨?_, hc2, hc3, hc4⟩, CellInv_adv _ hi1, hi2, hi3, hi4⟩
              rw [ClockDigit.adv_digits]
              exact hc1
          · have he : f.tick = { f with hr01 := f.hr01.adv } := by
              unfold ClockFace.tick
              rw [ClockFace.do_step_hr01 f hst h1 h2 h3]
            rw [he]
            refine ⟨⟨hc1, ?_, hc3, hc4⟩, hi1, CellInv_adv _ hi2, hi3, hi4⟩
            rw [ClockDigit.adv_digits]
            exact hc2
        · have he : f.tick = { f with min10 := f.min10.adv } := by
            unfold ClockFace.tick
            rw [ClockFace.do_step_min10 f hst h1 h2]
          rw [he]
          refine ⟨⟨hc1, hc2, ?_, hc4⟩, hi1, hi2, CellInv_adv _ hi3, hi4⟩
          rw [ClockDigit.adv_digits]
          exact hc3
      · have he : f.tick = { f with min01 := f.min01.adv } := by
          unfold ClockFace.tick
          rw [ClockFace.do_step_min01 f hst h1]
        rw [he]
        refine ⟨⟨hc1, hc2, hc3, ?_⟩, hi1, hi2, hi3, CellInv_adv _ hi4⟩
        rw [ClockDigit.adv_digits]
        exact hc4
  | fmtD fmt =>
    show FaceConfig (f.set_disp_fmt fmt) ∧ FaceInv (f.set_disp_fmt fmt)
    rw [ClockFace.set_disp_fmt_eq]
    have l10 : (f.hr10.digits.length : Int) ≤ 3 := by
      rw [hc1]
      cases f.disp_fmt <;> decide
    have l01 : (f.hr01.digits.length : Int) = 10 := by rw [hc2]; rfl
    obtain ⟨ha1, ha2, _, _, _, _⟩ := hi1
    obtain ⟨hb1, hb2, _, _, _, _⟩ := hi2
    have hh0 : 0 ≤ f.hr10.curr_idx * 10 + f.hr01.curr_idx := by nlinarith
    have hh30 : f.hr10.curr_idx * 10 + f.hr01.curr_idx < 30 := by nlinarith
    have hb10 := hr10_target_bound fmt _ hh0 hh30
    obtain ⟨hn0, hn30⟩ := normHours_bounds fmt _ hh0 hh30
    refine ⟨⟨rfl, hc2, hc3, hc4⟩,
      ⟨hb10.1, hb10.2, hb10.1, hb10.2, Nat.zero_le _, fun _ => rfl⟩,
      ⟨?_, ?_, ?_, ?_, Nat.zero_le _, fun _ => rfl⟩,
      hi3, hi4⟩ <;> dsimp only <;> omega

theorem runOps_preserves (ops : List DriverOp) :
    ∀ f : ClockFace, (∀ op ∈ ops, ValidOp op) → FaceConfig f → FaceInv f →
      FaceConfig (runOps f ops) ∧ FaceInv (runOps f ops) := by
  induction ops with
  | nil =>
    intro f _ hc hi
    exact ⟨hc, hi⟩
  | cons op rest ih =>
    intro f hv hc hi
    have hs := applyOp_preserves f op hc hi (hv op (List.mem_cons_self _ _))
    have hr := ih (applyOp f op) (fun o ho => hv o (List.mem_cons_of_mem _ ho))
      hs.1 hs.2
    simpa [runOps, List.foldl_cons] using hr

/-- C9: starting from the constructed face, every sequence of driver
operations (`set_digits` / `update_digits` with hours in `[0, 24)` and
minutes in `[0, 60)`, `do_step`, and format changes) keeps both indices of
every cell inside its alphabet, keeps `step ∈ [0, MAX_STEP]` with
`MAX_STEP = 4`, and keeps `step = 0` on every settled cell. -/
theorem clockFace_driver_invariant (ops : List DriverOp)
    (hv : ∀ op ∈ ops, ValidOp op) :
    MAX_STEP = 4 ∧ FaceInv (runOps mkClockFace ops) := by
  have hc : FaceConfig mkClockFace := by decide
  have hi : FaceInv mkClockFace := by decide
  exact ⟨rfl, (runOps_preserves ops mkClockFace hv hc hi).2⟩

/-- Witness for C9 on a concrete driver run: set 12:56, animate to 00:59,
one tick, then a format switch. -/
theorem clockFace_driver_invariant_witness :
    MAX_STEP = 4 ∧
      FaceInv (runOps mkClockFace
        [.setD 12 56, .updateD 0 59, .stepD, .fmtD .HR24]) :=
  clockFace_driver_invariant [.setD 12 56, .updateD 0 59, .stepD, .fmtD .HR24]
    (by decide)

/-! ### Claim C5: the RGB565 encoder -/

theorem encodePixels_length (l : List Pixel) :
    (encodePixels l).length = 2 * l.length := by
  induction l with
  | nil => rfl
  | cons p ps ih =>
    show (pack_be16 (rgb565 p) ++ encodePixels ps).length = _
    simp [pack_be16, ih]
    omega

theorem encodePixels_getElem (l : List Pixel) :
    ∀ (i : Nat) (h : i < l.length),
      (encodePixels l)[2 * i]? = some (rgb565 (l.get ⟨i, h⟩) / 2 ^ 8 % 256) ∧
      (encodePixels l)[2 * i + 1]? = some (rgb565 (l.get ⟨i, h⟩) % 256) := by
  induction l with
  | nil =>
    intro i h
    exact absurd h (by simp)
  | cons p ps ih =>
    intro i h
    have hc : encodePixels (p :: ps) =
        (rgb565 p / 2 ^ 8 % 256) :: rgb565 p % 256 :: encodePixels ps := rfl
    cases i with
    | zero =>
      refine ⟨rfl, ?_⟩
      show (encodePixels (p :: ps))[0 + 1]? = _
      rw [hc]
      simp only [List.getElem?_cons_succ, List.getElem?_cons_zero]
      rfl
    | succ j =>
      have hj : j < ps.length := by simpa using h
      obtain ⟨e1, e2⟩ := ih j hj
      constructor
      · show (encodePixels (p :: ps))[2 * j + 1 + 1]? = _
        rw [hc]
        simp only [List.getElem?_cons_succ]
        exact e1
      · show (encodePixels (p :: ps))[2 * j + 1 + 1 + 1]? = _
        rw [hc]
        simp only [List.getElem?_cons_succ]
        exact e2

theorem rgb565_lt (p : Pixel) : rgb565 p < 2 ^ 16 := by
  unfold rgb565
  refine Nat.or_lt_two_pow (Nat.or_lt_two_pow ?_ ?_) ?_
  · rw [Nat.shiftLeft_eq]
    have h := Nat.and_le_right (n := p.1) (m := 0xF8)
    omega
  · rw [Nat.shiftLeft_eq]
    have h := Nat.and_le_right (n := p.2.1) (m := 0xFC)
    omega
  · rw [Nat.shiftRight_eq_div_pow]
    have h := Nat.and_le_right (n := p.2.2) (m := 0xF8)
    omega

/-- C5: the encoder emits exactly `16 + 2·W·H` bytes — the magic `"R565"`,
the width, height and reserved 0 as big-endian int32 fields (decoding the
four width bytes big-endian recovers the width, and likewise the height),
then one big-endian uint16 word per pixel in row-major order, the word of
pixel `i` (column `i mod W`, row `i div W`) being the `rgb565` packing of
its 8-bit channels (truncating `& 0xF8 / & 0xFC` masks, not rounding). -/
theorem convertRGB565_spec (image : Image)
    (hw : image.width < 2 ^ 32) (hh : image.height < 2 ^ 32) :
    (convertRGB565 image).length = 16 + 2 * (image.width * image.height) ∧
    (convertRGB565 image).take 16 =
      [0x52, 0x35, 0x36, 0x35] ++ pack_be32 image.width ++
        pack_be32 image.height ++ pack_be32 0 ∧
    (pack_be32 image.width).foldl (fun acc b => acc * 256 + b) 0 = image.width ∧
    (pack_be32 image.height).foldl (fun acc b => acc * 256 + b) 0 = image.height ∧
    pack_be32 0 = [0, 0, 0, 0] ∧
    ∀ i (hi : i < image.height * image.width),
      rgb565 (image.pix (i % image.width) (i / image.width)) < 2 ^ 16 ∧
      (convertRGB565 image)[16 + 2 * i]? =
        some (rgb565 (image.pix (i % image.width) (i / image.width)) / 2 ^ 8 % 256) ∧
      (convertRGB565 image)[16 + 2 * i + 1]? =
        some (rgb565 (image.pix (i % image.width) (i / image.width)) % 256) := by
  have hlenh : ([0x52, 0x35, 0x36, 0x35] ++ pack_be32 image.width ++
      pack_be32 image.height ++ pack_be32 0).length = 16 := by
    simp [pack_be32]
  have hlend : image.getdata.length = image.height * image.width := by
    simp [Image.getdata]
  refine ⟨?_, List.take_left' hlenh, ?_, ?_, rfl, ?_⟩
  · show (_ ++ encodePixels image.getdata).length = _
    rw [List.length_append, hlenh, encodePixels_length, hlend,
      Nat.mul_comm image.height image.width]
  · simp only [pack_be32, List.foldl_cons, List.foldl_nil]
    omega
  · simp only [pack_be32, List.foldl_cons, List.foldl_nil]
    omega
  · intro i hi
    have hlen' : i < image.getdata.length := by rw [hlend]; exact hi
    have hgd : image.getdata.get ⟨i, hlen'⟩ =
        image.pix (i % image.width) (i / image.width) := by
      simp [Image.getdata]
    obtain ⟨e1, e2⟩ := encodePixels_getElem image.getdata i hlen'
    rw [hgd] at e1 e2
    refine ⟨rgb565_lt _, ?_, ?_⟩
    · show (_ ++ encodePixels image.getdata)[16 + 2 * i]? = _
      rw [List.getElem?_append_right (by rw [hlenh]; omega), hlenh,
        show 16 + 2 * i - 16 = 2 * i from by omega]
      exact e1
    · show (_ ++ encodePixels image.getdata)[16 + 2 * i + 1]? = _
      rw [List.getElem?_append_right (by rw [hlenh]; omega), hlenh,
        show 16 + 2 * i + 1 - 16 = 2 * i + 1 from by omega]
      exact e2

/-- Witness for C5 at a concrete 1×2 image of pixels `(255, 130, 7)`. -/
theorem convertRGB565_spec_witness :
    (convertRGB565 ⟨1, 2, fun _ _ => (255, 130, 7)⟩).length = 16 + 2 * (1 * 2) ∧
    (convertRGB565 ⟨1, 2, fun _ _ => (255, 130, 7)⟩)[16 + 2 * 1]? =
      some (rgb565 (255, 130, 7) / 2 ^ 8 % 256) :=
  ⟨(convertRGB565_spec ⟨1, 2, fun _ _ => (255, 130, 7)⟩ (by decide) (by decide)).1,
   ((convertRGB565_spec ⟨1, 2, fun _ _ => (255, 130, 7)⟩ (by decide)
      (by decide)).2.2.2.2.2 1 (by decide)).2.1⟩

/-! ### Claim C6: frame synthesis -/

/-- C6 (amended, `H` divisible by 4): for size-correct resizes, frame 0 is
`initial` unmodified; frame 2 takes rows `[0, H/2)` from `final` and rows
`[H/2, H)` from `initial`; frame 1 equals frame 2 outside the band
`[H/4, H/2)`, and inside it shows `initial`'s top half compressed to half
its vertical extent, except the one-pixel divider at `y = H/4` (for
`x ∈ [RECT_RADIUS, W - RECT_RADIUS]`); frame 3 equals frame 2 outside the
band `[H/2, 3H/4)` and off the divider row, shows `final`'s compressed
bottom half inside the band, and the divider at `y = 3H/4`; the settled
final image `(to, to, 0)` is not among the files this call saves. -/
theorem make_frames_spec
    (resize : Image → Nat → Nat → Nat → Nat → Nat → Nat → Image)
    (hres : ∀ img w h l t r b, (resize img w h l t r b).width = w ∧
      (resize img w h l t r b).height = h)
    (W H : Nat) (hH4 : H % 4 = 0) (c1 c2 : Char) (hcc : c1 ≠ c2)
    (init_img final_img : Image)
    (hiw : init_img.width = W) (hih : init_img.height = H)
    (hfw : final_img.width = W) (hfh : final_img.height = H) :
    (make_frames resize W H init_img final_img).1 = init_img ∧
    (∀ x y, x < W → y < H →
      (make_frames resize W H init_img final_img).2.2.1.pix x y =
        if y < H / 2 then final_img.pix x y else init_img.pix x y) ∧
    (∀ x y, x < W → y < H →
      ((y < H / 4 ∨ H / 2 ≤ y) →
        (make_frames resize W H init_img final_img).2.1.pix x y =
          (make_frames resize W H init_img final_img).2.2.1.pix x y) ∧
      (H / 4 ≤ y → y < H / 2 →
        (make_frames resize W H init_img final_img).2.1.pix x y =
          if y = H / 4 ∧ RECT_RADIUS ≤ x ∧ x ≤ W - RECT_RADIUS then DIGIT_SEP
          else (resize init_img W (H / 4) 0 0 W (H / 2)).pix x (y - H / 4))) ∧
    (∀ x y, x < W → y < H →
      ((y < H / 2 ∨ (H * 3) / 4 < y ∨
          (y = (H * 3) / 4 ∧ ¬(RECT_RADIUS ≤ x ∧ x ≤ W - RECT_RADIUS))) →
        (make_frames resize W H init_img final_img).2.2.2.pix x y =
          (make_frames resize W H init_img final_img).2.2.1.pix x y) ∧
      (H / 2 ≤ y → y < (H * 3) / 4 →
        (make_frames resize W H init_img final_img).2.2.2.pix x y =
          (resize final_img W (H / 4) 0 (H / 2) W H).pix x (y - H / 2)) ∧
      (y = (H * 3) / 4 → RECT_RADIUS ≤ x → x ≤ W - RECT_RADIUS →
        (make_frames resize W H init_img final_img).2.2.2.pix x y = DIGIT_SEP)) ∧
    (∀ e ∈ make_images_saves resize W H c1 c2 init_img final_img,
      e.1 ≠ (c2, c2, 0)) := by
  obtain ⟨htw, hth⟩ := hres init_img W (H / 4) 0 0 W (H / 2)
  obtain ⟨hbw, hbh⟩ := hres final_img W (H / 4) 0 (H / 2) W H
  refine ⟨rfl, ?_, ?_, ?_, ?_⟩
  · intro x y hx hy
    show (init_img.paste (final_img.crop 0 0 W (H / 2)) 0 0).pix x y = _
    simp only [Image.paste, Image.crop, Nat.sub_zero, Nat.add_zero, Nat.zero_add,
      Nat.zero_le, true_and]
    by_cases hy2 : y < H / 2
    · rw [if_pos ⟨hx, hy2⟩, if_pos hy2]
    · rw [if_neg (fun hcon => hy2 hcon.2), if_neg hy2]
  · intro x y hx hy
    constructor
    · intro hout
      show (((init_img.paste (final_img.crop 0 0 W (H / 2)) 0 0).paste
          (resize init_img W (H / 4) 0 0 W (H / 2)) 0 (H / 4)).hline RECT_RADIUS
          (W - RECT_RADIUS) (H / 4) DIGIT_SEP).pix x y = _
      simp only [Image.hline, Image.paste, Image.crop]
      rw [if_neg, if_neg]
      · rfl
      · rw [hth, htw]
        intro hcon
        omega
      · intro hcon
        omega
    · intro hb1 hb2
      show (((init_img.paste (final_img.crop 0 0 W (H / 2)) 0 0).paste
          (resize init_img W (H / 4) 0 0 W (H / 2)) 0 (H / 4)).hline RECT_RADIUS
          (W - RECT_RADIUS) (H / 4) DIGIT_SEP).pix x y = _
      simp only [Image.hline, Image.paste, Image.crop]
      by_cases hdiv : y = H / 4 ∧ RECT_RADIUS ≤ x ∧ x ≤ W - RECT_RADIUS
      · rw [if_pos hdiv, if_pos hdiv]
      · rw [if_neg hdiv, if_neg hdiv, if_pos]
        · rw [Nat.sub_zero]
        · rw [hth, htw]
          refine ⟨Nat.zero_le _, by omega, hb1, by omega⟩
  · intro x y hx hy
    refine ⟨?_, ?_, ?_⟩
    · intro hout
      show (((init_img.paste (final_img.crop 0 0 W (H / 2)) 0 0).paste
          (resize final_img W (H / 4) 0 (H / 2) W H) 0 (H / 2)).hline RECT_RADIUS
          (W - RECT_RADIUS) ((H * 3) / 4) DIGIT_SEP).pix x y = _
      simp only [Image.hline, Image.paste, Image.crop]
      rw [if_neg, if_neg]
      · rfl
      · rw [hbh, hbw]
        intro hcon
        omega
      · intro hcon
        rcases hout with h' | h' | h' <;> omega
    · intro hb1 hb2
      show (((init_img.paste (final_img.crop 0 0 W (H / 2)) 0 0).paste
          (resize final_img W (H / 4) 0 (H / 2) W H) 0 (H / 2)).hline RECT_RADIUS
          (W - RECT_RADIUS) ((H * 3) / 4) DIGIT_SEP).pix x y = _
      simp only [Image.hline, Image.paste, Image.crop]
      rw [if_neg (fun hcon => by omega), if_pos]
      · rw [Nat.sub_zero]
      · rw [hbh, hbw]
        refine ⟨Nat.zero_le _, by omega, hb1, by omega⟩
    · intro hdy hdx1 hdx2
      show (((init_img.paste (final_img.crop 0 0 W (H / 2)) 0 0).paste
          (resize final_img W (H / 4) 0 (H / 2) W H) 0 (H / 2)).hline RECT_RADIUS
          (W - RECT_RADIUS) ((H * 3) / 4) DIGIT_SEP).pix x y = _
      simp only [Image.hline, Image.paste, Image.crop]
      rw [if_pos ⟨hdy, hdx1, hdx2⟩]
  · intro e he
    simp only [make_images_saves, List.mem_cons, List.not_mem_nil, or_false] at he
    rcases he with rfl | rfl | rfl | rfl
    · intro hcon
      exact hcc (congrArg Prod.fst hcon)
    · intro hcon
      have h' := congrArg (fun q : Char × Char × Nat => q.2.2) hcon
      have h2 : (1 : Nat) = 0 := h'
      exact absurd h2 (by decide)
    · intro hcon
      have h' := congrArg (fun q : Char × Char × Nat => q.2.2) hcon
      have h2 : (2 : Nat) = 0 := h'
      exact absurd h2 (by decide)
    · intro hcon
      have h' := congrArg (fun q : Char × Char × Nat => q.2.2) hcon
      have h2 : (3 : Nat) = 0 := h'
      exact absurd h2 (by decide)

/-- Witness for C6 at two constant 20×8 images and a vertical 2:1
decimating resize. -/
theorem make_frames_spec_witness :
    (make_frames (fun img w h l t _ _ => ⟨w, h, fun x y => img.pix (l + x) (t + 2 * y)⟩)
        20 8 ⟨20, 8, fun _ _ => (1, 1, 1)⟩ ⟨20, 8, fun _ _ => (2, 2, 2)⟩).1 =
      (⟨20, 8, fun _ _ => (1, 1, 1)⟩ : Image) ∧
    (make_frames (fun img w h l t _ _ => ⟨w, h, fun x y => img.pix (l + x) (t + 2 * y)⟩)
        20 8 ⟨20, 8, fun _ _ => (1, 1, 1)⟩ ⟨20, 8, fun _ _ => (2, 2, 2)⟩).2.2.1.pix 0 0 =
      if 0 < 8 / 2 then (⟨20, 8, fun _ _ => (2, 2, 2)⟩ : Image).pix 0 0
      else (⟨20, 8, fun _ _ => (1, 1, 1)⟩ : Image).pix 0 0 :=
  ⟨(make_frames_spec _ (fun _ _ _ _ _ _ _ => ⟨rfl, rfl⟩) 20 8 (by decide)
      (Char.ofNat 48) (Char.ofNat 49) (by decide) _ _ rfl rfl rfl rfl).1,
   (make_frames_spec _ (fun _ _ _ _ _ _ _ => ⟨rfl, rfl⟩) 20 8 (by decide)
      (Char.ofNat 48) (Char.ofNat 49) (by decide) _ _ rfl rfl rfl rfl).2.1 0 0
      (by decide) (by decide)⟩

/-- C6 counterexample: at `H = 6` (not divisible by 4) the pixel `(0, 2)`
lies in the claimed band `[H/4, H/2) = [1, 3)` and off the divider row, yet
frame 1 holds `final`'s pixel there, not the compressed `initial` — the
pasted band really is `[H/4, H/4 + H/4)`, which is smaller than
`[H/4, H/2)` when `H mod 4 = 2`. -/
theorem make_frames_counterexample :
    6 / 4 ≤ 2 ∧ 2 < 6 / 2 ∧ ¬(2 = 6 / 4) ∧
    (make_frames (fun img w h l t _ _ => ⟨w, h, fun x y => img.pix (l + x) (t + 2 * y)⟩)
        20 6 ⟨20, 6, fun _ _ => (1, 1, 1)⟩ ⟨20, 6, fun _ _ => (2, 2, 2)⟩).2.1.pix 0 2 =
      (2, 2, 2) ∧
    ((fun img w h l t _ _ => (⟨w, h, fun x y => img.pix (l + x) (t + 2 * y)⟩ : Image))
        (⟨20, 6, fun _ _ => (1, 1, 1)⟩ : Image) 20 (6 / 4) 0 0 20 (6 / 2)).pix 0 (2 - 6 / 4) =
      (1, 1, 1) ∧
    ((2 : Nat), (2 : Nat), (2 : Nat)) ≠ ((1 : Nat), (1 : Nat), (1 : Nat)) := by
  refine ⟨by decide, by decide, by decide, by decide, by decide, by decide⟩

end FlipClock
